import Mathlib

/-!
Verification of the filer repository (src/filer.py): a filename pattern
matcher and rebuilder.  The Python source is shallowly embedded below.
Arrays of fixed size (the 10 x 300 capture table, the 300-cell output
buffer) are modelled as functions from indices to `Option Char`, where
`none` models the empty Python string in a cell; every write carries the
same bounds check that Python list assignment performs, and an
out-of-range write produces an explicit error value that models Python
raising an uncaught IndexError.  Loops of the source are modelled as
fuel-indexed structural recursions; the fuel is always instantiated by
the wrapper definitions with a bound that exceeds the number of
iterations the Python loop can make, and running out of fuel yields a
distinguished outcome that the theorems never rely on.
-/

/-- FNLEN = 300, the max length of a filename or rebuilt name (filer.py line 35). -/
def FNLEN : Nat := 300

/-- The capture table: 10 rows of FNLEN cells.  Cell (i, k) holds `none` when the
Python cell holds the empty string.  Models `self.table` (filer.py line 41). -/
def Table : Type := Nat → Nat → Option Char

/-- All cells empty: the state of the table after the driver cleared every line. -/
def emptyTable : Table := fun _ _ => none

/-- Reading cell (i, k), as Python `self.table[i][k]` at in-bounds indices. -/
def getCell (t : Table) (i k : Nat) : Option Char := t i k

/-- Python `self.table[i][k] = c`: raises IndexError (modelled as `none`)
unless i < 10 and k < FNLEN. -/
def setCell (t : Table) (i k : Nat) (c : Char) : Option Table :=
  if i < 10 ∧ k < FNLEN then
    some (fun j m => if j = i ∧ m = k then some c else t j m)
  else none

/-- Filer.clear_table_line (filer.py lines 51-54): sets every cell of row
`line` to the empty string; raises IndexError (modelled as `none`) when
`line` is not below 10. -/
def clear_table_line (t : Table) (line : Nat) : Option Table :=
  if line < 10 then
    some (fun j m => if j = line ∧ m < FNLEN then none else t j m)
  else none

/-- Result of a match attempt: `res b t` is a normal return of boolean `b`
with final table `t`; `err` models an uncaught Python IndexError; `oof`
is fuel exhaustion, unreachable with the fuel `filerMatch` supplies. -/
inductive MRes : Type where
  | oof : MRes
  | err : MRes
  | res : Bool → Table → MRes

/-- The boolean returned by a match attempt, when it returned normally. -/
def MRes.toBool : MRes → Option Bool
  | .res b _ => some b
  | _ => none

/-- Whether the match attempt ended in an uncaught IndexError. -/
def MRes.isErr : MRes → Bool
  | .err => true
  | _ => false

/-- The table produced by a match attempt (`emptyTable` if it did not return). -/
def MRes.table : MRes → Table
  | .res _ t => t
  | _ => emptyTable

mutual

/-- Filer.match (filer.py lines 56-108), fuel-indexed.  `dots` is
`self.include_dots`; `fn`, `p`, `fp`, `pp`, `tp` are as in the source.
The first `if` is the dotfile rejection; then the two exhaustion checks;
then the equal-character, `?` and `*` branches; the final case is a
literal mismatch.  The `*` branch stores the current filename character
at row cell 1 and first tries the continuation with both positions
advanced; if that fails it enters the expansion loop `starLoop`. -/
def matchF (dots : Bool) (fn p : List Char) :
    Nat → Nat → Nat → Nat → Table → MRes
  | 0, _, _, _, _ => .oof
  | gas + 1, fp, pp, tp, t =>
    if fn.head? = some '.' ∧ dots = false then .res false t
    else if fp ≥ fn.length ∧ pp ≥ p.length then .res true t
    else if fp ≥ fn.length ∨ pp ≥ p.length then .res false t
    else
      let fc := fn.getD fp ' '
      let pc := p.getD pp ' '
      if fc = pc then matchF dots fn p gas (fp + 1) (pp + 1) tp t
      else if pc = '?' then
        match clear_table_line t tp with
        | none => .err
        | some t1 =>
          match setCell t1 tp 0 '?' with
          | none => .err
          | some t2 =>
            match setCell t2 tp 1 fc with
            | none => .err
            | some t3 => matchF dots fn p gas (fp + 1) (pp + 1) (tp + 1) t3
      else if pc = '*' then
        match clear_table_line t tp with
        | none => .err
        | some t1 =>
          match setCell t1 tp 0 '*' with
          | none => .err
          | some t2 =>
            match setCell t2 tp 1 fc with
            | none => .err
            | some t3 =>
              match matchF dots fn p gas (fp + 1) (pp + 1) (tp + 1) t3 with
              | .oof => .oof
              | .err => .err
              | .res true t4 => .res true t4
              | .res false t4 => starLoopF dots fn p gas fp pp tp 1 t4
      else .res false t
  termination_by structural gas _ _ _ _ => gas

/-- The star-expansion loop of Filer.match (filer.py lines 95-106),
fuel-indexed.  Entered after the one-character attempt for a `*` at
pattern position `pp` failed, with `fp` the filename position of the
last character stored and `sp` the row cell it was stored at.  Each
iteration advances both, stores the next character, and retries the
continuation; when the filename is exhausted it succeeds exactly when
the pattern has nothing after the `*`. -/
def starLoopF (dots : Bool) (fn p : List Char) :
    Nat → Nat → Nat → Nat → Nat → Table → MRes
  | 0, _, _, _, _, _ => .oof
  | gas + 1, fp, pp, tp, sp, t =>
    let fp1 := fp + 1
    let sp1 := sp + 1
    if fp1 ≥ fn.length then
      if pp + 1 ≥ p.length then .res true t else .res false t
    else
      match setCell t tp sp1 (fn.getD fp1 ' ') with
      | none => .err
      | some t1 =>
        match matchF dots fn p gas (fp1 + 1) (pp + 1) (tp + 1) t1 with
        | .oof => .oof
        | .err => .err
        | .res true t2 => .res true t2
        | .res false t2 => starLoopF dots fn p gas fp1 pp tp sp1 t2
  termination_by structural gas _ _ _ _ _ => gas

end

/-- A single match attempt as the driver performs it (filer.py line 320):
positions and table cursor start at 0 and the table is fully cleared.
The fuel bound exceeds the deepest possible chain of recursive calls,
each of which strictly decreases `2 * ((length fn - fp) + (length p - pp))`
adjusted by the call kind, so the `oof` outcome cannot occur here. -/
def filerMatch (dots : Bool) (fn p : List Char) : MRes :=
  matchF dots fn p (2 * (fn.length + p.length) + 1) 0 0 0 emptyTable

/-- The ASCII apostrophe, the quote marker of rebuild templates. -/
def quoteChar : Char := Char.ofNat 39

/-- The current local time as the eight strings strftime renders in rb_date
(filer.py lines 206-243).  The clock is an external collaborator, so a
rebuild takes these rendered fields as an argument. -/
structure Clock : Type where
  yy : List Char
  yyyy : List Char
  mm : List Char
  dd : List Char
  mi : List Char
  hh : List Char
  ymd : List Char
  hm : List Char

/-- The mutable Filer state a rebuild works on: the output cells `nn`
(a 300-cell buffer; `none` is the empty string left by the clearing loop of
filer.py lines 117-118), the output cursor `nnp`, the star and
question-mark cursors `stk` and `qmk`, and `log`, the diagnostics printed
to stdout so far during this rebuild. -/
structure St : Type where
  nn : Nat → Option Char
  nnp : Nat
  stk : Nat
  qmk : Nat
  log : List String

/-- How a rebuild ends abnormally: `exitc c st` models `sys.exit(c)` with the
state (diagnostics included) at that point; `idxErr st` models an uncaught
IndexError from an out-of-range buffer write; `oofE st` is fuel exhaustion,
unreachable with the fuel `rebuild` supplies. -/
inductive RbErr : Type where
  | exitc : Nat → St → RbErr
  | idxErr : St → RbErr
  | oofE : St → RbErr

/-- Appending one printed diagnostic line to the state's stdout log. -/
def logmsg (st : St) (m : String) : St :=
  { st with log := st.log ++ [m] }

/-- Python `self.nn[self.nnp] = c; self.nnp += 1` at an in-bounds cursor. -/
def writeNN (st : St) (c : Char) : St :=
  { st with nn := fun j => if j = st.nnp then some c else st.nn j,
            nnp := st.nnp + 1 }

/-- Filer.insert_string (filer.py lines 267-272): copies `s` into the output
buffer, silently dropping every character for which the cursor has reached
FNLEN. -/
def insert_string (st : St) (s : List Char) : St :=
  s.foldl (fun a c => if a.nnp < FNLEN then writeNN a c else a) st

/-- Python `int(c)` on a single character: the digit value, or an error
(`none`, the ValueError case) when `c` is not a decimal digit. -/
def pyint (c : Char) : Option Nat :=
  if c.isDigit then some (c.toNat - 48) else none

/-- Python `str.zfill`: left-pad with zeros up to width `w`, never truncating. -/
def zfill (w : Nat) (s : List Char) : List Char :=
  List.replicate (w - s.length) '0' ++ s

/-- Filer.get_digit (filer.py lines 282-297): called with `l` just past a
`*` or `?` of the rebuild template, it returns an explicit index 1-9 when
cell l+1 is an apostrophe and cell l+2 a digit 1-9, the error value 99
when the apostrophe is present but the digit is missing or out of range,
and 0 (meaning: use the auto cursor) when there is no apostrophe at l+1. -/
def get_digit (r : List Char) (l : Nat) : Nat :=
  if l + 1 ≥ r.length ∨ r.getD (l + 1) ' ' ≠ quoteChar then 0
  else if l + 2 ≥ r.length then 99
  else
    match pyint (r.getD (l + 2) ' ') with
    | some d => if 1 ≤ d ∧ d ≤ 9 then d else 99
    | none => 99

/-- The row-search loop of rb_star and rb_qmark (filer.py lines 150-156 and
179-185): scan rows upward, decrementing `temp` at every row whose kind
cell holds `kind`, stopping when `temp` reaches 0 or the row index reaches
10.  `gas` bounds the iterations; 12 is enough since the row index never
exceeds 10. -/
def findWhere (kind : Char) (t : Table) : Nat → Nat → Nat → Nat
  | 0, _, whr => whr
  | gas + 1, temp, whr =>
    if temp ≠ 0 ∧ whr < 10 then
      let temp1 := if getCell t whr 0 = some kind then temp - 1 else temp
      if temp1 > 0 then findWhere kind t gas temp1 (whr + 1) else whr
    else whr

/-- The copy loop of Filer.rb_copy (filer.py lines 274-280), fuel-indexed:
starting at row cell `tk`, copy characters of row `whr` into the output
buffer until an empty cell or cell index FNLEN; each write goes through
the unchecked `self.nn[self.nnp]`, so a full buffer raises IndexError. -/
def rb_copyAux (t : Table) (whr : Nat) : Nat → Nat → St → Except RbErr St
  | 0, _, st => .error (.oofE st)
  | gas + 1, tk, st =>
    if tk < FNLEN then
      match getCell t whr tk with
      | none => .ok st
      | some c =>
        if st.nnp < FNLEN then rb_copyAux t whr gas (tk + 1) (writeNN st c)
        else .error (.idxErr st)
    else .ok st

/-- Filer.rb_copy (filer.py lines 274-280): copy table row `whr` from cell 1. -/
def rb_copy (t : Table) (whr : Nat) (st : St) : Except RbErr St :=
  rb_copyAux t whr (FNLEN + 1) 1 st

/-- Filer.rb_star (filer.py lines 135-162): handle a `*` of the rebuild
template at position `l`.  An index error value 99 prints a diagnostic and
gives up on the reference; index 0 advances the star cursor, an explicit
index sets it; then the table is searched for the dg-th star row, a failed
search prints a diagnostic and gives up, and a successful one copies the
row's text. -/
def rb_star (r : List Char) (t : Table) (l : Nat) (st : St) : Except RbErr St :=
  let dg := get_digit r (l + 1)
  if dg = 99 then .ok (logmsg st "Filer: Pattern index must be 1-9!")
  else
    let dg1 := if dg = 0 then st.stk + 1 else dg
    let st1 := { st with stk := dg1 }
    let whr := findWhere '*' t 12 dg1 0
    if whr ≥ 10 ∨ getCell t whr 0 = none then
      .ok (logmsg st1 "Can\x27t find indexed pattern item.")
    else rb_copy t whr st1

/-- Filer.rb_qmark (filer.py lines 164-191): same as rb_star with the
question-mark kind and cursor. -/
def rb_qmark (r : List Char) (t : Table) (l : Nat) (st : St) : Except RbErr St :=
  let dg := get_digit r (l + 1)
  if dg = 99 then .ok (logmsg st "Filer: Pattern index must be 1-9!")
  else
    let dg1 := if dg = 0 then st.qmk + 1 else dg
    let st1 := { st with qmk := dg1 }
    let whr := findWhere '?' t 12 dg1 0
    if whr ≥ 10 ∨ getCell t whr 0 = none then
      .ok (logmsg st1 "Can\x27t find indexed pattern item.")
    else rb_copy t whr st1

/-- Filer.rb_date (filer.py lines 206-243): called with `l` at the `d` of a
quote-escape; the next character selects a rendered clock field, anything
else (a missing character included) prints a diagnostic and exits with
status 2.  Returns the position just past the code. -/
def rb_date (r : List Char) (ck : Clock) (l : Nat) (st : St) :
    Except RbErr (Nat × St) :=
  let l2 := l + 1
  if l2 ≥ r.length then
    .error (.exitc 2 (logmsg st "Filer: Invalid \x27d_ date spec!"))
  else
    let c := r.getD l2 ' '
    if c = 'y' then .ok (l2 + 1, insert_string st ck.yy)
    else if c = 'Y' then .ok (l2 + 1, insert_string st ck.yyyy)
    else if c = 'm' then .ok (l2 + 1, insert_string st ck.mm)
    else if c = 'd' then .ok (l2 + 1, insert_string st ck.dd)
    else if c = 'M' then .ok (l2 + 1, insert_string st ck.mi)
    else if c = 'H' then .ok (l2 + 1, insert_string st ck.hh)
    else if c = 's' then .ok (l2 + 1, insert_string st ck.ymd)
    else if c = 't' then .ok (l2 + 1, insert_string st ck.hm)
    else .error (.exitc 2 (logmsg st "Filer: Invalid \x27d_ date spec!"))

/-- Filer.rb_seq (filer.py lines 245-265): called with `l` at the `s` of a
quote-escape; the next character must be a digit 1-9 giving the zero-fill
width for the current sequence number, anything else exits with status 2. -/
def rb_seq (r : List Char) (seq : Nat) (l : Nat) (st : St) :
    Except RbErr (Nat × St) :=
  let l2 := l + 1
  if l2 ≥ r.length then
    .error (.exitc 2 (logmsg st "Filer: Invalid \x27s_ sequence spec!"))
  else
    match pyint (r.getD l2 ' ') with
    | some digits =>
      if digits < 1 ∨ digits > 9 then
        .error (.exitc 2 (logmsg st "Filer: Sequence digit count must be 1-9!"))
      else .ok (l2 + 1, insert_string st (zfill digits (Nat.toDigits 10 seq)))
    | none => .error (.exitc 2 (logmsg st "Filer: Invalid \x27s_ sequence spec!"))

/-- Filer.rb_quote (filer.py lines 193-204): called with `l` at an apostrophe
of the rebuild template.  A following `d` or `s` dispatches to the date or
sequence handler; any other following character exits with status 2; an
apostrophe that ends the template is returned past without complaint. -/
def rb_quote (r : List Char) (ck : Clock) (seq : Nat) (l : Nat) (st : St) :
    Except RbErr (Nat × St) :=
  let l1 := l + 1
  if l1 < r.length then
    if r.getD l1 ' ' = 'd' then rb_date r ck l1 st
    else if r.getD l1 ' ' = 's' then rb_seq r seq l1 st
    else .error (.exitc 2 (logmsg st "Filer: Invalid \x27_ quote spec!"))
  else .ok (l1, st)

/-- The template loop of Filer.rebuild (filer.py lines 120-133),
fuel-indexed: a `*` or `?` is handled by its reference handler and `l`
advances by one; an apostrophe is handled by rb_quote which returns the
next position; any other character is written to the output buffer by the
unchecked `self.nn[self.nnp]`, raising IndexError when the buffer is full. -/
def rebuildLoopF (r : List Char) (t : Table) (ck : Clock) (seq : Nat) :
    Nat → Nat → St → Except RbErr St
  | 0, _, st => .error (.oofE st)
  | gas + 1, l, st =>
    if l < r.length then
      let c := r.getD l ' '
      if c = '*' then
        match rb_star r t l st with
        | .error e => .error e
        | .ok st1 => rebuildLoopF r t ck seq gas (l + 1) st1
      else if c = '?' then
        match rb_qmark r t l st with
        | .error e => .error e
        | .ok st1 => rebuildLoopF r t ck seq gas (l + 1) st1
      else if c = quoteChar then
        match rb_quote r ck seq l st with
        | .error e => .error e
        | .ok (l2, st1) => rebuildLoopF r t ck seq gas l2 st1
      else
        if st.nnp < FNLEN then rebuildLoopF r t ck seq gas (l + 1) (writeNN st c)
        else .error (.idxErr st)
    else .ok st

/-- The state Filer.rebuild starts from (filer.py lines 112-118): cursors
reset, output buffer cleared, nothing printed yet. -/
def initSt : St :=
  { nn := fun _ => none, nnp := 0, stk := 0, qmk := 0, log := [] }

/-- Filer.rebuild (filer.py lines 110-133): run the template loop from
position 0 on a fresh state.  The fuel exceeds the template length, and
every iteration advances the position by at least one, so the fuel cannot
run out. -/
def rebuild (r : List Char) (t : Table) (ck : Clock) (seq : Nat) :
    Except RbErr St :=
  rebuildLoopF r t ck seq (r.length + 1) 0 initSt

/-- Filer.get_rebuilt_name (filer.py lines 299-305): the characters of the
output buffer below the cursor, empty cells skipped. -/
def get_rebuilt_name (st : St) : List Char :=
  (List.range st.nnp).filterMap st.nn

/-- The exit status a rebuild outcome gives the Python process: a normal
return is status 0, `sys.exit(c)` is status c, and an uncaught IndexError
makes the interpreter die with status 1.  The fuel case is unreachable and
mapped to 255. -/
def rbExitCode : Except RbErr St → Nat
  | .ok _ => 0
  | .error (.exitc c _) => c
  | .error (.idxErr _) => 1
  | .error (.oofE _) => 255

/-- The status of a `sys.exit` ending a rebuild step, if that is how it ended. -/
def isExit {α : Type} : Except RbErr α → Option Nat
  | .error (.exitc c _) => some c
  | _ => none

/-- Everything this rebuild printed to stdout, however it ended. -/
def logOf : Except RbErr St → List String
  | .ok st => st.log
  | .error (.exitc _ st) => st.log
  | .error (.idxErr st) => st.log
  | .error (.oofE st) => st.log

/-- The rebuilt name of a normally completed rebuild (else empty). -/
def rebuiltName (e : Except RbErr St) : List Char :=
  match e with
  | .ok st => get_rebuilt_name st
  | _ => []

/-- Reading the text of a table row the way rb_copy does: cells from index
1 up to the first empty one.  Used to state what a match captured. -/
def rowTextAux (t : Table) (i : Nat) : Nat → Nat → List Char
  | 0, _ => []
  | gas + 1, k =>
    match getCell t i k with
    | none => []
    | some c => c :: rowTextAux t i gas (k + 1)

/-- The captured text stored in table row `i`. -/
def rowText (t : Table) (i : Nat) : List Char :=
  rowTextAux t i FNLEN 1

/-- The kind marker of table row `i`: star, question mark, or empty. -/
def rowKind (t : Table) (i : Nat) : Option Char :=
  getCell t i 0

/-- The table a successful driver-style match attempt leaves behind
(`emptyTable` when the attempt did not return normally). -/
def tableOfMatch (dots : Bool) (fn p : List Char) : Table :=
  (filerMatch dots fn p).table

/-- How a whole run ends abnormally, with the per-rebuild state stripped:
a `sys.exit` with its status, an uncaught IndexError, or fuel exhaustion
(unreachable with the fuel the wrappers supply). -/
inductive RunErr : Type where
  | exitc : Nat → RunErr
  | idxErr : RunErr
  | oofR : RunErr
deriving DecidableEq

/-- Forgetting the state part of a rebuild error. -/
def stripErr : RbErr → RunErr
  | .exitc c _ => .exitc c
  | .idxErr _ => .idxErr
  | .oofE _ => .oofR

/-- Model of `os.path.join(dirspec, filename)` for the POSIX cases the
driver can produce: an absolute filename wins, an empty dirspec is
dropped, and otherwise exactly one slash separates the two. -/
def pathJoin (dirspec f : List Char) : List Char :=
  if f.head? = some '/' then f
  else if dirspec = [] then f
  else if dirspec.getLast? = some '/' then dirspec ++ f
  else dirspec ++ '/' :: f

/-- One printed output line (filer.py lines 324-327): the command prefix,
the joined path and the rebuilt name, space-separated, both quoted when
quoting is enabled. -/
def mkLine (quote : Bool) (cmd path name : List Char) : List Char :=
  if quote then cmd ++ ' ' :: '"' :: (path ++ '"' :: ' ' :: '"' :: (name ++ ['"']))
  else cmd ++ ' ' :: (path ++ ' ' :: name)

/-- Filer.process_files (filer.py lines 307-330) on a directory listing
`files`: per file, clear the table, attempt the match, and on success
rebuild, emit a line and increment the sequence counter.  Returns the
emitted lines and the final counter; a `sys.exit` or uncaught IndexError
anywhere ends the whole run. -/
def process_files (dots quote : Bool) (cmd dirspec p r : List Char) (ck : Clock) :
    List (List Char) → Nat → Except RunErr (List (List Char) × Nat)
  | [], seq => .ok ([], seq)
  | f :: rest, seq =>
    match filerMatch dots f p with
    | .oof => .error .oofR
    | .err => .error .idxErr
    | .res false _ => process_files dots quote cmd dirspec p r ck rest seq
    | .res true t =>
      match rebuild r t ck seq with
      | .error e => .error (stripErr e)
      | .ok st =>
        let line := mkLine quote cmd (pathJoin dirspec f) (get_rebuilt_name st)
        match process_files dots quote cmd dirspec p r ck rest (seq + 1) with
        | .error e => .error e
        | .ok (lines, seq2) => .ok (line :: lines, seq2)

/-- The initial value of the sequence counter (filer.py line 49). -/
def initialSeq : Nat := 1

/-- A sample clock for concrete runs, rendered as strftime would. -/
def ck0 : Clock :=
  { yy := "25".toList, yyyy := "2025".toList, mm := "01".toList,
    dd := "02".toList, mi := "03".toList, hh := "04".toList,
    ymd := "20250102".toList, hm := "0403".toList }

set_option maxRecDepth 40000


/-- C1 counterexample: the claim asserts match("ac", "a*c") succeeds via an
empty Star capture; in the code the `*` branch stores the current filename
character before its first recursive attempt, so the attempt never covers
the empty run and this match returns false. -/
theorem C1_counterexample :
    (filerMatch false ['a', 'c'] ['a', '*', 'c']).toBool = some false := by
  decide

/-- C1 (amended): a `*` in the match pattern matches a run of ONE or more
characters: at a `*` the matcher first attempts a one-character match
(storing the current filename character and advancing both positions),
then grows the capture one character at a time, so no successful match has
an empty Star capture.  Concretely: match("ac", "a*c") fails,
match("abc", "a*c") succeeds with Star text "b", match("", "*") fails, and
match("a", "*") succeeds with Star text "a". -/
theorem C1_star_one_or_more :
    (filerMatch false ['a', 'c'] ['a', '*', 'c']).toBool = some false ∧
    (filerMatch false ['a', 'b', 'c'] ['a', '*', 'c']).toBool = some true ∧
    rowKind (tableOfMatch false ['a', 'b', 'c'] ['a', '*', 'c']) 0 = some '*' ∧
    rowText (tableOfMatch false ['a', 'b', 'c'] ['a', '*', 'c']) 0 = ['b'] ∧
    (filerMatch false [] ['*']).toBool = some false ∧
    (filerMatch false ['a'] ['*']).toBool = some true ∧
    rowText (tableOfMatch false ['a'] ['*']) 0 = ['a'] := by
  decide

/-- C2: the program's own help text says "*" or "?" followed by an
apostrophe and a digit replays the indexed capture (filer.py lines
338-343), and the claim follows it; but get_digit looks for the apostrophe
one position past where rb_star leaves it (so "*" immediately followed by
an apostrophe yields index 0, the auto cursor), and rebuild advances past
the "*" by one character only, so the apostrophe-digit pair is then
reparsed as a quote-escape whose letter is a digit, which exits with
status 2.  After match("abc", "*b*") succeeds with Star captures "a" and
"c", rebuilding with "*'2*'1" appends "a" (not "c") and the run aborts
with status 2; same for "*'1*'2". -/
theorem C2_indexed_reference_code_bug :
    (filerMatch false ['a', 'b', 'c'] ['*', 'b', '*']).toBool = some true ∧
    rowKind (tableOfMatch false ['a', 'b', 'c'] ['*', 'b', '*']) 0 = some '*' ∧
    rowText (tableOfMatch false ['a', 'b', 'c'] ['*', 'b', '*']) 0 = ['a'] ∧
    rowKind (tableOfMatch false ['a', 'b', 'c'] ['*', 'b', '*']) 1 = some '*' ∧
    rowText (tableOfMatch false ['a', 'b', 'c'] ['*', 'b', '*']) 1 = ['c'] ∧
    get_digit ['*', quoteChar, '2'] 1 = 0 ∧
    get_digit ['*', 'x', quoteChar, '3'] 1 = 3 ∧
    isExit (rebuild ['*', quoteChar, '2', '*', quoteChar, '1']
      (tableOfMatch false ['a', 'b', 'c'] ['*', 'b', '*']) ck0 initialSeq) = some 2 ∧
    isExit (rebuild ['*', quoteChar, '1', '*', quoteChar, '2']
      (tableOfMatch false ['a', 'b', 'c'] ['*', 'b', '*']) ck0 initialSeq) = some 2 ∧
    logOf (rebuild ['*', quoteChar, '2', '*', quoteChar, '1']
      (tableOfMatch false ['a', 'b', 'c'] ['*', 'b', '*']) ck0 initialSeq) =
      ["Filer: Invalid \x27_ quote spec!"] := by
  decide

/-- C5: when the filename is exhausted while a `*` is growing its captured
text, the star-expansion loop returns true exactly when no pattern tokens
remain after the `*` (whose position is `pp`); the table is left as it
was and no further backtracking is attempted. -/
theorem C5_end_of_filename_mid_star (dots : Bool) (fn p : List Char)
    (gas fp pp tp sp : Nat) (t : Table) (h : fn.length ≤ fp + 1) :
    starLoopF dots fn p (gas + 1) fp pp tp sp t =
      .res (decide (p.length ≤ pp + 1)) t := by
  unfold starLoopF
  rw [if_pos (by omega : fp + 1 ≥ fn.length)]
  by_cases hp : pp + 1 ≥ p.length
  · rw [if_pos hp]
    simp [decide_eq_true_eq.mpr]
    omega
  · rw [if_neg hp]
    have : ¬(p.length ≤ pp + 1) := by omega
    simp [this]

/-- Closed instance of C5: the loop at the end of filename "ab" with
pattern "*c" (a literal after the star) fails without backtracking. -/
theorem C5_end_of_filename_mid_star_witness :
    starLoopF false ['a', 'b'] ['*', 'c'] 5 1 0 0 1 emptyTable =
      .res false emptyTable :=
  C5_end_of_filename_mid_star false ['a', 'b'] ['*', 'c'] 4 1 0 0 1 emptyTable
    (by decide)

/-- C7 counterexample: with eleven `?` wildcards against an eleven-character
filename, the eleventh wildcard does not produce any defined
CaptureOverflow value: the attempt aborts with an uncaught IndexError
(the crash outcome of the embedding). -/
theorem C7_counterexample :
    (filerMatch false (List.replicate 11 'a') (List.replicate 11 '?')).isErr =
      true := by
  decide

/-- C7 (amended): when the capture cursor has passed the ten table rows and
another wildcard is reached, the very first table access
(clear_table_line) raises an uncaught IndexError: the match attempt ends
in the crash outcome, and in particular never wraps around or overwrites
an earlier record. -/
theorem C7_eleventh_wildcard_index_error (dots : Bool) (fn p : List Char)
    (gas fp pp tp : Nat) (t : Table)
    (hdot : ¬(fn.head? = some '.' ∧ dots = false))
    (hfp : fp < fn.length) (hpp : pp < p.length)
    (hne : fn.getD fp ' ' ≠ p.getD pp ' ')
    (hw : p.getD pp ' ' = '?' ∨ p.getD pp ' ' = '*')
    (htp : 10 ≤ tp) :
    matchF dots fn p (gas + 1) fp pp tp t = .err := by
  have hclear : clear_table_line t tp = none := by
    unfold clear_table_line
    rw [if_neg (by omega : ¬tp < 10)]
  unfold matchF
  rw [if_neg hdot]
  rw [if_neg (by omega : ¬(fp ≥ fn.length ∧ pp ≥ p.length))]
  rw [if_neg (by omega : ¬(fp ≥ fn.length ∨ pp ≥ p.length))]
  rcases hw with hq | hs
  · simp only [hq, if_neg (hq ▸ hne), if_pos rfl, hclear]
    simp
  · simp only [hs, if_neg (hs ▸ hne), if_neg (by decide : ¬('*' : Char) = '?'),
      if_pos rfl, hclear]
    simp

/-- Closed instance of C7 (amended): a wildcard reached with the capture
cursor at row ten crashes the attempt. -/
theorem C7_eleventh_wildcard_index_error_witness :
    matchF false ['a'] ['?'] 5 0 0 10 emptyTable = .err :=
  C7_eleventh_wildcard_index_error false ['a'] ['?'] 4 0 0 10 emptyTable
    (by decide) (by decide) (by decide) (by decide) (Or.inl (by decide))
    (by decide)

/-- C3 counterexample: the claim says no character appended to a full
output buffer raises an error, for every template; but the literal-append
of the rebuild loop is unchecked, so a template of 301 literal characters
dies with an uncaught IndexError (process exit status 1). -/
theorem C3_counterexample :
    rbExitCode (rebuild (List.replicate 301 'a') emptyTable ck0 initialSeq) =
      1 := by
  decide

/-- C3 (amended): only insert_string (date fields and sequence numbers)
silently drops characters beyond the 300-cell buffer; a literal template
character and a capture copy are appended without a bounds check and raise
an uncaught IndexError when the buffer is full.  Concretely: a 301st
literal crashes; a capture copy into a full buffer crashes; a date field
that does not fit is truncated without error. -/
theorem C3_truncation_only_in_insert_string :
    (∀ (st : St) (s : List Char), st.nnp ≤ FNLEN →
      (insert_string st s).nnp ≤ FNLEN) ∧
    rbExitCode (rebuild (List.replicate 300 'a' ++ ['b']) emptyTable ck0
      initialSeq) = 1 ∧
    rbExitCode (rebuild (List.replicate 300 'a' ++ ['*'])
      (tableOfMatch false ['x'] ['*']) ck0 initialSeq) = 1 ∧
    rbExitCode (rebuild (List.replicate 299 'a' ++ [quoteChar, 'd', 'Y'])
      emptyTable ck0 initialSeq) = 0 ∧
    (rebuiltName (rebuild (List.replicate 299 'a' ++ [quoteChar, 'd', 'Y'])
      emptyTable ck0 initialSeq)).length = FNLEN := by
  refine ⟨?_, by decide, by decide, by decide, by decide⟩
  intro st s
  induction s generalizing st with
  | nil => intro h; simpa [insert_string] using h
  | cons c cs ih =>
    intro h
    by_cases hlt : st.nnp < FNLEN
    · simpa [insert_string, List.foldl_cons, hlt] using
        ih (writeNN st c) (by simp [writeNN]; omega)
    · simpa [insert_string, List.foldl_cons, hlt] using ih st h

/-- Closed instance of the insert_string part of C3 (amended). -/
theorem C3_truncation_only_in_insert_string_witness :
    initSt.nnp ≤ FNLEN ∧ (insert_string initSt ['x']).nnp ≤ FNLEN :=
  ⟨by decide, C3_truncation_only_in_insert_string.1 initSt ['x'] (by decide)⟩

/-- C6 counterexample: with an empty capture table, the template "*x'5"
makes the star reference resolve to explicit index 5 of which no capture
exists; the diagnostic is printed and nothing is appended, but the run
does not survive: the index characters are reparsed as a quote-escape and
the process exits with status 2, contradicting "the process does not
exit". -/
theorem C6_counterexample :
    isExit (rebuild ['*', 'x', quoteChar, '5'] emptyTable ck0 initialSeq) =
      some 2 ∧
    logOf (rebuild ['*', 'x', quoteChar, '5'] emptyTable ck0 initialSeq) =
      ["Can\x27t find indexed pattern item.",
       "Filer: Invalid \x27_ quote spec!"] := by
  decide

/-- C6 (amended): an out-of-range wildcard index is recoverable at the
level of the reference handler: whenever the row search fails, rb_star
prints "Can't find indexed pattern item.", appends nothing to the output
buffer, and returns normally, and for an unindexed reference the whole
rebuild indeed continues to the next token and the run survives; only
the leftover characters of an explicitly written index later abort the
run (the get_digit off-by-one of C2). -/
theorem C6_out_of_range_reference_recovers :
    (∀ (r : List Char) (t : Table) (l : Nat) (st : St),
      get_digit r (l + 1) ≠ 99 →
      (10 ≤ findWhere '*' t 12
          (if get_digit r (l + 1) = 0 then st.stk + 1 else get_digit r (l + 1)) 0 ∨
        getCell t (findWhere '*' t 12
          (if get_digit r (l + 1) = 0 then st.stk + 1 else get_digit r (l + 1)) 0)
          0 = none) →
      ∃ st2, rb_star r t l st = .ok st2 ∧ st2.nn = st.nn ∧ st2.nnp = st.nnp ∧
        st2.log = st.log ++ ["Can\x27t find indexed pattern item."]) ∧
    rbExitCode (rebuild ['*', '*', 'x'] (tableOfMatch false ['a'] ['*']) ck0
      initialSeq) = 0 ∧
    rebuiltName (rebuild ['*', '*', 'x'] (tableOfMatch false ['a'] ['*']) ck0
      initialSeq) = ['a', 'x'] ∧
    logOf (rebuild ['*', '*', 'x'] (tableOfMatch false ['a'] ['*']) ck0
      initialSeq) = ["Can\x27t find indexed pattern item."] := by
  refine ⟨?_, by decide, by decide, by decide⟩
  intro r t l st h99 hnf
  unfold rb_star
  rw [if_neg h99]
  dsimp only
  rw [if_pos hnf]
  exact ⟨_, rfl, rfl, rfl, rfl⟩

/-- Closed instance of the rb_star part of C6 (amended): an unindexed star
reference against an empty table prints the diagnostic and returns
normally with the buffer untouched. -/
theorem C6_out_of_range_reference_recovers_witness :
    ∃ st2, rb_star ['*'] emptyTable 0 initSt = .ok st2 ∧ st2.nn = initSt.nn ∧
      st2.nnp = initSt.nnp ∧
      st2.log = initSt.log ++ ["Can\x27t find indexed pattern item."] :=
  C6_out_of_range_reference_recovers.1 ['*'] emptyTable 0 initSt (by decide)
    (by decide)

/-- The copy loop can only end normally or in an IndexError, never in a
`sys.exit`. -/
theorem isExit_rb_copyAux (t : Table) (whr : Nat) :
    ∀ gas tk st, isExit (rb_copyAux t whr gas tk st) = none := by
  intro gas
  induction gas with
  | zero => intro tk st; rfl
  | succ g ih =>
    intro tk st
    unfold rb_copyAux
    by_cases htk : tk < FNLEN
    · rw [if_pos htk]
      cases hc : getCell t whr tk with
      | none => rfl
      | some c =>
        dsimp only
        by_cases hnnp : st.nnp < FNLEN
        · rw [if_pos hnnp]; exact ih _ _
        · rw [if_neg hnnp]; rfl
    · rw [if_neg htk]; rfl

/-- rb_copy can only end normally or in an IndexError, never in a `sys.exit`. -/
theorem isExit_rb_copy (t : Table) (whr : Nat) (st : St) :
    isExit (rb_copy t whr st) = none :=
  isExit_rb_copyAux t whr (FNLEN + 1) 1 st

/-- rb_star never calls `sys.exit`. -/
theorem isExit_rb_star (r : List Char) (t : Table) (l : Nat) (st : St) :
    isExit (rb_star r t l st) = none := by
  unfold rb_star
  dsimp only
  split
  · rfl
  · split <;> split
    all_goals first | rfl | exact isExit_rb_copy _ _ _

/-- rb_qmark never calls `sys.exit`. -/
theorem isExit_rb_qmark (r : List Char) (t : Table) (l : Nat) (st : St) :
    isExit (rb_qmark r t l st) = none := by
  unfold rb_qmark
  dsimp only
  split
  · rfl
  · split <;> split
    all_goals first | rfl | exact isExit_rb_copy _ _ _

/-- A step result whose exit status is known is an exit error. -/
theorem isExit_some {α : Type} (e : Except RbErr α) (c : Nat)
    (h : isExit e = some c) : ∃ st2, e = .error (.exitc c st2) := by
  cases e with
  | ok x => simp [isExit] at h
  | error er =>
    cases er with
    | exitc c2 st2 =>
      simp [isExit] at h
      exact ⟨st2, by rw [h]⟩
    | idxErr st2 => simp [isExit] at h
    | oofE st2 => simp [isExit] at h

/-- Every `sys.exit` in rb_date carries status 2. -/
theorem rb_date_exit (r : List Char) (ck : Clock) (l : Nat) (st : St)
    (c : Nat) (st2 : St)
    (hd : rb_date r ck l st = .error (.exitc c st2)) : c = 2 := by
  unfold rb_date at hd
  dsimp only at hd
  simp only [ite_eq_iff] at hd
  repeat' rcases hd with ⟨_, hd⟩ | ⟨_, hd⟩
  all_goals rfl

/-- Every `sys.exit` in rb_seq carries status 2. -/
theorem rb_seq_exit (r : List Char) (seq l : Nat) (st : St) (c : Nat) (st2 : St)
    (hd : rb_seq r seq l st = .error (.exitc c st2)) : c = 2 := by
  unfold rb_seq at hd
  dsimp only at hd
  cases hp : pyint (r.getD (l + 1) ' ') with
  | none =>
    rw [hp] at hd
    dsimp only at hd
    simp only [ite_eq_iff] at hd
    repeat' rcases hd with ⟨_, hd⟩ | ⟨_, hd⟩
    all_goals rfl
  | some digits =>
    rw [hp] at hd
    dsimp only at hd
    simp only [ite_eq_iff] at hd
    repeat' rcases hd with ⟨_, hd⟩ | ⟨_, hd⟩
    all_goals rfl

/-- Every `sys.exit` in rb_quote carries status 2. -/
theorem rb_quote_exit (r : List Char) (ck : Clock) (seq l : Nat) (st : St)
    (c : Nat) (st2 : St)
    (hd : rb_quote r ck seq l st = .error (.exitc c st2)) : c = 2 := by
  unfold rb_quote at hd
  dsimp only at hd
  simp only [ite_eq_iff] at hd
  repeat' rcases hd with ⟨_, hd⟩ | ⟨_, hd⟩
  all_goals
    first
    | rfl
    | exact rb_date_exit r ck (l + 1) st c st2 hd
    | exact rb_seq_exit r seq (l + 1) st c st2 hd

/-- Every `sys.exit` reachable from the rebuild template loop carries
status 2. -/
theorem rebuildLoopF_exit (r : List Char) (t : Table) (ck : Clock) (seq : Nat) :
    ∀ gas l st c, isExit (rebuildLoopF r t ck seq gas l st) = some c → c = 2 := by
  intro gas
  induction gas with
  | zero => intro l st c h; simp [rebuildLoopF, isExit] at h
  | succ g ih =>
    intro l st c h
    unfold rebuildLoopF at h
    by_cases hl : l < r.length
    · rw [if_pos hl] at h
      dsimp only at h
      by_cases hst : r.getD l ' ' = '*'
      · rw [if_pos hst] at h
        cases hrs : rb_star r t l st with
        | error e =>
          rw [hrs] at h
          dsimp only at h
          have h2 := isExit_rb_star r t l st
          rw [hrs] at h2
          rw [h2] at h
          cases h
        | ok st1 =>
          rw [hrs] at h
          dsimp only at h
          exact ih _ _ _ h
      · rw [if_neg hst] at h
        by_cases hq : r.getD l ' ' = '?'
        · rw [if_pos hq] at h
          cases hrs : rb_qmark r t l st with
          | error e =>
            rw [hrs] at h
            dsimp only at h
            have h2 := isExit_rb_qmark r t l st
            rw [hrs] at h2
            rw [h2] at h
            cases h
          | ok st1 =>
            rw [hrs] at h
            dsimp only at h
            exact ih _ _ _ h
        · rw [if_neg hq] at h
          by_cases hqc : r.getD l ' ' = quoteChar
          · rw [if_pos hqc] at h
            cases hrq : rb_quote r ck seq l st with
            | error e =>
              rw [hrq] at h
              dsimp only at h
              cases e with
              | exitc c2 st2 =>
                have hc2 : c2 = 2 := rb_quote_exit r ck seq l st c2 st2 hrq
                simp [isExit] at h
                omega
              | idxErr st2 => simp [isExit] at h
              | oofE st2 => simp [isExit] at h
            | ok pair =>
              obtain ⟨l2, st1⟩ := pair
              rw [hrq] at h
              dsimp only at h
              exact ih _ _ _ h
          · rw [if_neg hqc] at h
            by_cases hnnp : st.nnp < FNLEN
            · rw [if_pos hnnp] at h
              exact ih _ _ _ h
            · rw [if_neg hnnp] at h
              cases h
    · rw [if_neg hl] at h
      cases h

/-- Every `sys.exit` reachable from a rebuild carries status 2. -/
theorem rebuild_exit (r : List Char) (t : Table) (ck : Clock) (seq c : Nat)
    (h : isExit (rebuild r t ck seq) = some c) : c = 2 :=
  rebuildLoopF_exit r t ck seq (r.length + 1) 0 initSt c h

/-- Every `sys.exit` reachable from the driver loop carries status 2. -/
theorem process_files_exit (dots quote : Bool) (cmd dirspec p r : List Char)
    (ck : Clock) :
    ∀ (files : List (List Char)) (seq c : Nat),
      process_files dots quote cmd dirspec p r ck files seq =
        .error (.exitc c) → c = 2 := by
  intro files
  induction files with
  | nil => intro seq c h; simp [process_files] at h
  | cons f rest ih =>
    intro seq c h
    unfold process_files at h
    cases hm : filerMatch dots f p with
    | oof => rw [hm] at h; cases h
    | err => rw [hm] at h; cases h
    | res b t2 =>
      rw [hm] at h
      cases b with
      | false =>
        dsimp only at h
        exact ih _ _ h
      | true =>
        dsimp only at h
        cases hr : rebuild r t2 ck seq with
        | error e =>
          rw [hr] at h
          dsimp only at h
          cases e with
          | exitc c2 st2 =>
            have hc2 : c2 = 2 := by
              refine rebuild_exit r t2 ck seq c2 ?_
              rw [hr]; rfl
            dsimp only [stripErr] at h
            cases h
            exact hc2
          | idxErr st2 => dsimp only [stripErr] at h; cases h
          | oofE st2 => dsimp only [stripErr] at h; cases h
        | ok st =>
          rw [hr] at h
          dsimp only at h
          cases hrec : process_files dots quote cmd dirspec p r ck rest (seq + 1) with
          | error e2 =>
            rw [hrec] at h
            dsimp only at h
            cases h
            exact ih _ _ hrec
          | ok pair =>
            obtain ⟨lines, seq2⟩ := pair
            rw [hrec] at h
            dsimp only at h
            cases h

/-- C4 counterexample: the claim says no condition other than a malformed
quote-escape produces a non-zero exit; but a template of 301 literal
characters, which contains no quote marker at all, kills the process with
an uncaught IndexError, whose exit status is 1. -/
theorem C4_counterexample :
    rbExitCode (rebuild (List.replicate 301 'b') emptyTable ck0 initialSeq) =
      1 ∧
    quoteChar ∉ List.replicate 301 'b' := by
  constructor
  · decide
  · decide

/-- C4 (amended): a malformed quote-escape reached during a rebuild calls
`sys.exit(2)` — status 2 is the only status `sys.exit` is ever called
with, at rebuild level and driver level alike — and concretely an unknown
letter after the quote marker exits with status 2; but the process can
also terminate non-zero (status 1) through an uncaught IndexError when
the output buffer or capture table overflows. -/
theorem C4_exit_status :
    (∀ (r : List Char) (t : Table) (ck : Clock) (seq c : Nat),
      isExit (rebuild r t ck seq) = some c → c = 2) ∧
    (∀ (dots quote : Bool) (cmd dirspec p r : List Char) (ck : Clock)
        (files : List (List Char)) (seq c : Nat),
      process_files dots quote cmd dirspec p r ck files seq =
        .error (.exitc c) → c = 2) ∧
    isExit (rebuild [quoteChar, 'x'] emptyTable ck0 initialSeq) = some 2 :=
  ⟨fun r t ck seq c h => rebuild_exit r t ck seq c h,
   fun dots quote cmd dirspec p r ck files seq c h =>
     process_files_exit dots quote cmd dirspec p r ck files seq c h,
   by decide⟩

/-- Closed instance of C4 (amended): the bad template consisting of a
quote marker and the letter x exits with status 2. -/
theorem C4_exit_status_witness :
    isExit (rebuild [quoteChar, 'x'] emptyTable ck0 initialSeq) = some 2 ∧
    (2 : Nat) = 2 :=
  ⟨by decide,
   C4_exit_status.1 [quoteChar, 'x'] emptyTable ck0 initialSeq 2 (by decide)⟩

/-- getD at an in-bounds index is the indexed element. -/
theorem getD_eq_of_lt (l : List Char) (n : Nat) (d : Char)
    (h : n < l.length) : l.getD n d = l[n] := by
  simp [List.getD_eq_getElem?_getD, List.getElem?_eq_getElem h]

/-- On a pattern whose remaining tokens are all literals, the matcher is
character-for-character equality of the remaining suffixes, gated by the
dotfile rule; the table is never touched. -/
theorem matchF_no_wildcards (dots : Bool) (fn p : List Char) :
    ∀ gas fp pp tp t,
      2 * ((fn.length - fp) + (p.length - pp)) < gas →
      (∀ c ∈ p.drop pp, c ≠ '*' ∧ c ≠ '?') →
      matchF dots fn p gas fp pp tp t =
        .res (decide (¬(fn.head? = some '.' ∧ dots = false) ∧
          fn.drop fp = p.drop pp)) t := by
  intro gas
  induction gas with
  | zero => intro fp pp tp t hb hw; exact absurd hb (by omega)
  | succ g ih =>
    intro fp pp tp t hb hw
    unfold matchF
    by_cases hdot : fn.head? = some '.' ∧ dots = false
    · rw [if_pos hdot]
      simp [hdot]
    · rw [if_neg hdot]
      by_cases hboth : fp ≥ fn.length ∧ pp ≥ p.length
      · rw [if_pos hboth]
        have h1 : fn.drop fp = [] := List.drop_eq_nil_of_le hboth.1
        have h2 : p.drop pp = [] := List.drop_eq_nil_of_le hboth.2
        simp [hdot, h1, h2]
      · rw [if_neg hboth]
        by_cases hone : fp ≥ fn.length ∨ pp ≥ p.length
        · rw [if_pos hone]
          have hne : fn.drop fp ≠ p.drop pp := by
            rcases hone with h | h
            · have h1 : fn.drop fp = [] := List.drop_eq_nil_of_le h
              have h2 : p.drop pp ≠ [] := by
                rw [Ne, List.drop_eq_nil_iff]
                omega
              rw [h1]
              exact fun he => h2 he.symm
            · have h1 : p.drop pp = [] := List.drop_eq_nil_of_le h
              have h2 : fn.drop fp ≠ [] := by
                rw [Ne, List.drop_eq_nil_iff]
                omega
              rw [h1]
              exact h2
          simp [hne]
        · rw [if_neg hone]
          have hfp : fp < fn.length := by omega
          have hpp : pp < p.length := by omega
          dsimp only
          have hfc : fn.getD fp ' ' = fn[fp] := getD_eq_of_lt fn fp ' ' hfp
          have hpc : p.getD pp ' ' = p[pp] := getD_eq_of_lt p pp ' ' hpp
          have hfdrop : fn.drop fp = fn[fp] :: fn.drop (fp + 1) :=
            List.drop_eq_getElem_cons hfp
          have hpdrop : p.drop pp = p[pp] :: p.drop (pp + 1) :=
            List.drop_eq_getElem_cons hpp
          have hpcw : p[pp] ≠ '*' ∧ p[pp] ≠ '?' := by
            refine hw (p[pp]) ?_
            rw [hpdrop]
            exact List.mem_cons_self _ _
          by_cases heq : fn.getD fp ' ' = p.getD pp ' '
          · rw [if_pos heq]
            have hw2 : ∀ c ∈ p.drop (pp + 1), c ≠ '*' ∧ c ≠ '?' := by
              intro c hc
              refine hw c ?_
              rw [hpdrop]
              exact List.mem_cons_of_mem _ hc
            rw [ih (fp + 1) (pp + 1) tp t (by omega) hw2]
            have hh : fn[fp] = p[pp] := by
              rw [← hfc, ← hpc]
              exact heq
            have hiff : fn.drop (fp + 1) = p.drop (pp + 1) ↔
                fn.drop fp = p.drop pp := by
              constructor
              · intro hteq
                rw [hfdrop, hpdrop, hh, hteq]
              · intro hceq
                rw [hfdrop, hpdrop] at hceq
                exact (List.cons_eq_cons.mp hceq).2
            have hde : decide (¬(fn.head? = some '.' ∧ dots = false) ∧
                  fn.drop (fp + 1) = p.drop (pp + 1)) =
                decide (¬(fn.head? = some '.' ∧ dots = false) ∧
                  fn.drop fp = p.drop pp) := by
              rw [decide_eq_decide]
              exact and_congr_right fun _ => hiff
            rw [hde]
          · rw [if_neg heq]
            rw [if_neg (by rw [hpc]; exact hpcw.2)]
            rw [if_neg (by rw [hpc]; exact hpcw.1)]
            have hne : fn.drop fp ≠ p.drop pp := by
              rw [hfdrop, hpdrop]
              intro hcons
              apply heq
              rw [hfc, hpc]
              exact (List.cons_eq_cons.mp hcons).1
            simp [hne]

/-- C8: on a pattern with no `*` and no `?`, a match succeeds exactly when
the filename equals the pattern character for character, except that a
dotfile with dotfile inclusion disabled never matches. -/
theorem C8_no_wildcards_exact_match (dots : Bool) (fn p : List Char)
    (h1 : '*' ∉ p) (h2 : '?' ∉ p) :
    (filerMatch dots fn p).toBool = some true ↔
      (fn = p ∧ ¬(fn.head? = some '.' ∧ dots = false)) := by
  have hw : ∀ c ∈ p.drop 0, c ≠ '*' ∧ c ≠ '?' := by
    intro c hc
    rw [List.drop_zero] at hc
    exact ⟨fun he => h1 (he ▸ hc), fun he => h2 (he ▸ hc)⟩
  have hm := matchF_no_wildcards dots fn p (2 * (fn.length + p.length) + 1)
    0 0 0 emptyTable (by omega) hw
  unfold filerMatch
  rw [hm]
  simp only [MRes.toBool, List.drop_zero, Option.some.injEq,
    decide_eq_true_eq]
  constructor
  · intro ⟨a, b⟩
    exact ⟨b, a⟩
  · intro ⟨a, b⟩
    exact ⟨b, a⟩

/-- Closed instance of C8: a wildcard-free pattern matches its own text. -/
theorem C8_no_wildcards_exact_match_witness :
    (filerMatch false ['a', 'b'] ['a', 'b']).toBool = some true :=
  (C8_no_wildcards_exact_match false ['a', 'b'] ['a', 'b'] (by decide)
    (by decide)).mpr ⟨rfl, by decide⟩

/-- The driver's counter invariant: a normally completed run ends with the
counter advanced by exactly the number of emitted lines, one per
successfully matched file. -/
theorem process_files_counter (dots quote : Bool) (cmd dirspec p r : List Char)
    (ck : Clock) :
    ∀ (files : List (List Char)) (seq seq2 : Nat) (lines : List (List Char)),
      process_files dots quote cmd dirspec p r ck files seq =
        .ok (lines, seq2) → seq2 = seq + lines.length := by
  intro files
  induction files with
  | nil =>
    intro seq seq2 lines h
    unfold process_files at h
    cases h
    simp
  | cons f rest ih =>
    intro seq seq2 lines h
    unfold process_files at h
    cases hm : filerMatch dots f p with
    | oof => rw [hm] at h; cases h
    | err => rw [hm] at h; cases h
    | res b t2 =>
      rw [hm] at h
      cases b with
      | false =>
        dsimp only at h
        exact ih _ _ _ h
      | true =>
        dsimp only at h
        cases hr : rebuild r t2 ck seq with
        | error e => rw [hr] at h; cases h
        | ok st =>
          rw [hr] at h
          dsimp only at h
          cases hrec : process_files dots quote cmd dirspec p r ck rest
              (seq + 1) with
          | error e2 => rw [hrec] at h; cases h
          | ok pair =>
            obtain ⟨lines2, s2⟩ := pair
            rw [hrec] at h
            dsimp only at h
            cases h
            have := ih _ _ _ hrec
            simp [List.length_cons]
            omega

/-- C9: the sequence counter starts at 1; the driver increments it exactly
once per successfully matched file (never on a failed match, whether or
not the template uses it), so a completed run ends with counter = start +
number of emitted lines; three files matching "*" with template file's3
yield names ending 001, 002, 003 in listing order; and the zero-fill of a
sequence number pads on the left to the requested width without ever
truncating a wider number. -/
theorem C9_sequence_counter :
    initialSeq = 1 ∧
    (∀ (dots quote : Bool) (cmd dirspec p r : List Char) (ck : Clock)
        (files : List (List Char)) (seq seq2 : Nat) (lines : List (List Char)),
      process_files dots quote cmd dirspec p r ck files seq =
        .ok (lines, seq2) → seq2 = seq + lines.length) ∧
    process_files false false [] ['.'] ['*']
      ['f', 'i', 'l', 'e', quoteChar, 's', '3'] ck0 [['a'], ['b'], ['c']]
      initialSeq =
      .ok ([" ./a file001".toList, " ./b file002".toList,
        " ./c file003".toList], 4) ∧
    (∀ (w : Nat) (s : List Char),
      (zfill w s).length = max w s.length ∧ List.IsSuffix s (zfill w s)) := by
  refine ⟨rfl, process_files_counter, by rfl, ?_⟩
  intro w s
  constructor
  · simp [zfill]
    omega
  · exact ⟨List.replicate (w - s.length) '0', rfl⟩

/-- Closed instance of C9: a one-file run ends with the counter at
initialSeq + 1. -/
theorem C9_sequence_counter_witness :
    (2 : Nat) = initialSeq + ([" ./a z".toList] : List (List Char)).length :=
  C9_sequence_counter.2.1 false false [] ['.'] ['*'] ['z'] ck0 [['a']]
    initialSeq 2 [" ./a z".toList] (by rfl)

/-- With the pattern exhausted but the filename not, a match step returns
false at once (the dotfile rejection also returns false), leaving the
table untouched. -/
theorem matchF_pp_exhausted (dots : Bool) (fn p : List Char)
    (gas fp pp tp : Nat) (t : Table)
    (hfp : fp < fn.length) (hpp : p.length ≤ pp) :
    matchF dots fn p (gas + 1) fp pp tp t = .res false t := by
  unfold matchF
  by_cases hdot : fn.head? = some '.' ∧ dots = false
  · rw [if_pos hdot]
  · rw [if_neg hdot]
    rw [if_neg (by omega : ¬(fp ≥ fn.length ∧ pp ≥ p.length))]
    rw [if_pos (Or.inr (by omega : pp ≥ p.length))]

/-- The star-expansion loop against pattern "*" on a filename of length at
least 300 eventually writes row cell 300 and dies with IndexError: storage
is written from cell 1 upward with no bounds check keyed to the loop. -/
theorem starLoopF_overflow (dots : Bool) (fn : List Char) :
    ∀ (gas fp : Nat) (t : Table), 300 ≤ fn.length → fp ≤ 298 →
      299 - fp ≤ gas →
      starLoopF dots fn ['*'] gas fp 0 0 (fp + 1) t = .err := by
  intro gas
  induction gas with
  | zero => intro fp t h1 h2 h3; exact absurd h3 (by omega)
  | succ g ih =>
    intro fp t h1 h2 h3
    unfold starLoopF
    dsimp only
    rw [if_neg (by omega : ¬(fp + 1 ≥ fn.length))]
    by_cases hsp : fp = 298
    · subst hsp
      have hset : setCell t 0 (298 + 1 + 1) (fn.getD (298 + 1) ' ') = none := by
        unfold setCell
        rw [if_neg (by decide)]
      rw [hset]
    · have hfp2 : fp < 298 := by omega
      cases hset : setCell t 0 (fp + 1 + 1) (fn.getD (fp + 1) ' ') with
      | none =>
        exfalso
        unfold setCell at hset
        rw [if_pos ⟨by omega, by simp [FNLEN]; omega⟩] at hset
        cases hset
      | some t1 =>
        dsimp only
        obtain ⟨g2, rfl⟩ : ∃ g2, g = g2 + 1 := ⟨g - 1, by omega⟩
        rw [matchF_pp_exhausted dots fn ['*'] g2 (fp + 1 + 1) (0 + 1) (0 + 1)
          t1 (by omega) (by simp)]
        dsimp only
        exact ih (fp + 1) t1 h1 (by omega) (by omega)

/-- A driver-style match of any 300-or-longer filename (not dot-rejected,
first character not `*`) against the pattern "*" reaches the star branch
and dies in the expansion loop. -/
theorem matchF_star_overflow (dots : Bool) (fn : List Char) (gas : Nat)
    (t : Table) (hgas : 300 ≤ gas) (hlen : 300 ≤ fn.length)
    (hdot : ¬(fn.head? = some '.' ∧ dots = false))
    (hstar : fn.head? ≠ some '*') :
    matchF dots fn ['*'] (gas + 1) 0 0 0 t = .err := by
  have hpc : (['*'] : List Char).getD 0 ' ' = '*' := rfl
  have hfc : fn.getD 0 ' ' ≠ '*' := by
    cases fn with
    | nil => simp at hlen
    | cons a as =>
      intro he
      rw [List.getD_cons_zero] at he
      exact hstar (by rw [List.head?_cons, he])
  unfold matchF
  rw [if_neg hdot]
  rw [if_neg (by intro hc; omega : ¬(0 ≥ fn.length ∧ 0 ≥ (['*'] : List Char).length))]
  rw [if_neg (by
    rintro (hc | hc)
    · omega
    · simp at hc : ¬(0 ≥ fn.length ∨ 0 ≥ (['*'] : List Char).length))]
  dsimp only
  rw [if_neg (by rw [hpc]; exact hfc)]
  rw [if_neg (by decide : ¬((['*'] : List Char).getD 0 ' ' = '?'))]
  rw [if_pos hpc]
  have hclear : clear_table_line t 0 =
      some (fun j m => if j = 0 ∧ m < FNLEN then none else t j m) := by
    unfold clear_table_line
    rw [if_pos (by omega)]
  rw [hclear]
  dsimp only
  cases hset1 : setCell (fun j m => if j = 0 ∧ m < FNLEN then none else t j m)
      0 0 '*' with
  | none =>
    exfalso
    unfold setCell at hset1
    rw [if_pos (by decide)] at hset1
    cases hset1
  | some t2 =>
    dsimp only
    cases hset2 : setCell t2 0 1 (fn.getD 0 ' ') with
    | none =>
      exfalso
      unfold setCell at hset2
      rw [if_pos (by decide)] at hset2
      cases hset2
    | some t3 =>
      dsimp only
      obtain ⟨g2, rfl⟩ : ∃ g2, gas = g2 + 1 := ⟨gas - 1, by omega⟩
      rw [matchF_pp_exhausted dots fn ['*'] g2 (0 + 1) (0 + 1) (0 + 1) t3
        (by omega) (by simp)]
      dsimp only
      exact starLoopF_overflow dots fn (g2 + 1) 0 t3 hlen (by omega) (by omega)

/-- C10 counterexample: a filename of length 300 whose first character is
`*` matches the equal-character branch first, so the pattern "*" is
consumed as a literal and the match returns false without any error —
the claim's "every filename of length 300 or more raises" fails here. -/
theorem C10_counterexample :
    (filerMatch false ('*' :: List.replicate 299 'a') ['*']).toBool =
      some false ∧
    ('*' :: List.replicate 299 'a').length = 300 ∧
    ('*' :: List.replicate 299 'a').head? ≠ some '.' := by
  refine ⟨by decide, by simp, by decide⟩

/-- C10 (amended): every filename of length 300 or more that is not
dot-rejected and whose first character is not `*` makes the match against
pattern "*" die with an uncaught IndexError: the star's text is written
from row cell 1 upward and the write of cell 300 is out of range. -/
theorem C10_long_filename_index_error (dots : Bool) (fn : List Char)
    (hlen : 300 ≤ fn.length)
    (hdot : ¬(fn.head? = some '.' ∧ dots = false))
    (hstar : fn.head? ≠ some '*') :
    filerMatch dots fn ['*'] = .err := by
  unfold filerMatch
  have hl : 2 * (fn.length + (['*'] : List Char).length) + 1 =
      (2 * fn.length + 2) + 1 := by
    simp
    omega
  rw [hl]
  exact matchF_star_overflow dots fn (2 * fn.length + 2) emptyTable
    (by omega) hlen hdot hstar

/-- Closed instance of C10 (amended): three hundred letters a crash the
match against "*". -/
theorem C10_long_filename_index_error_witness :
    filerMatch false (List.replicate 300 'a') ['*'] = .err :=
  C10_long_filename_index_error false (List.replicate 300 'a') (by simp)
    (by decide) (by decide)
